import Mathlib

/-!
Shallow embedding of the EESSI EasyBuild hooks (`eb_hooks.py`).

The hooks intercept lifecycle events of the EasyBuild framework (parse,
pre-prepare, post-prepare, pre-configure, post-package) and patch build
configuration.  Pure Python string/list manipulation is translated to
executable Lean functions; exceptions (`EasyBuildError`) become `Except`;
the process environment, CPU architecture and build options are passed
explicitly as parameters.
-/

namespace EbHooks

/-- Boolean contiguous-sublist test on character lists. -/
def isInfixB (l₁ l₂ : List Char) : Bool :=
  match l₂ with
  | [] => l₁.isEmpty
  | c :: t => l₁.isPrefixOf (c :: t) || isInfixB l₁ t

/-- Python `needle in hay` on strings: contiguous substring test. -/
def substr (needle hay : String) : Bool :=
  isInfixB needle.data hay.data

/-- Python `s.split(".")[0]`: the part of `s` before the first dot
(`s` itself when there is no dot). -/
def firstField (s : String) : String :=
  ⟨s.data.takeWhile (fun c => c ≠ '.')⟩

/-- Accumulator pass for `pyWords`: `cur` holds the (reversed) current
word, the input is consumed character by character. -/
def pyWordsL (cur : List Char) : List Char → List String
  | [] => if cur = [] then [] else [⟨cur.reverse⟩]
  | c :: cs =>
      if c.isWhitespace then
        if cur = [] then pyWordsL [] cs else ⟨cur.reverse⟩ :: pyWordsL [] cs
      else pyWordsL (c :: cur) cs

/-- Python `s.split()` with no argument: split on whitespace runs,
discarding empty pieces. -/
def pyWords (s : String) : List String :=
  pyWordsL [] s.data

/-- Python `s.strip()`: remove leading and trailing whitespace. -/
def pyStrip (s : String) : String :=
  ⟨((s.data.dropWhile Char.isWhitespace).reverse.dropWhile Char.isWhitespace).reverse⟩

/-- Fueled worker for `pyReplace`; the fuel is the input length, and one
character (at least) is consumed per step. -/
def pyReplaceF : Nat → List Char → List Char → List Char → List Char
  | 0, s, _, _ => s
  | _ + 1, [], _, _ => []
  | f + 1, c :: cs, pat, rep =>
      if pat ≠ [] ∧ pat.isPrefixOf (c :: cs) then
        rep ++ pyReplaceF f ((c :: cs).drop pat.length) pat rep
      else c :: pyReplaceF f cs pat rep

/-- Python `s.replace(pat, rep)` for a nonempty pattern: replace all
non-overlapping occurrences, left to right. -/
def pyReplace (s pat rep : String) : String :=
  ⟨pyReplaceF s.data.length s.data pat.data rep.data⟩

/-- Python `":".join(parts)`. -/
def joinColon : List String → String
  | [] => ""
  | [x] => x
  | x :: y :: xs => x ++ ":" ++ joinColon (y :: xs)

/-- Python truthiness of an optional string (`None` and `""` are falsy). -/
def optTruthy : Option String → Bool
  | none => false
  | some s => !(s == "")

/-- Whether a path is absolute (starts with the separator`/`). -/
def isAbs (p : String) : Bool :=
  p.data.head? = some '/'

/-- Python `os.path.join(a, b)` for two components (POSIX rules). -/
def joinPath (a b : String) : String :=
  if isAbs b then b
  else if a.data = [] then b
  else if a.data.getLast? = some '/' then a ++ b
  else a ++ "/" ++ b

/-- Replace the first occurrence of `pat` in `s` by `rep`, on character
lists (Python `s.replace(pat, rep, 1)`). -/
def replaceFirstL (s pat rep : List Char) : List Char :=
  match s with
  | [] => if pat = [] then rep else []
  | c :: cs =>
      if pat.isPrefixOf (c :: cs) then rep ++ (c :: cs).drop pat.length
      else c :: replaceFirstL cs pat rep

/-- Python `s.replace(pat, rep, 1)`: replace only the first occurrence. -/
def replaceFirst (s pat rep : String) : String :=
  ⟨replaceFirstL s.data pat.data rep.data⟩

/-- CPU architecture constants from `easybuild.tools.systemtools`. -/
inductive Arch where
  | AARCH64
  | POWER
  | X86_64
  | OTHER
  deriving DecidableEq, Repr

/-- `OPTARCH_GENERIC` from `easybuild.tools.toolchain.compiler`. -/
def OPTARCH_GENERIC : String := "GENERIC"

/-- A dependency entry `(name, version)`; the source manipulates the
leading components of EasyBuild dependency tuples. -/
abbrev Dep := String × String

/-- The slice of an easyconfig (`ec` / `self.cfg`) that the hooks read
and mutate. -/
structure EC where
  name : String
  deps : List Dep
  builddeps : List Dep
  toolchainName : String
  modluafooter : Option String
  tcStrict : Option Bool
  tcPrecise : Option Bool
  configopts : String
  preconfigopts : String
  deriving DecidableEq, Repr

/-- Modelled from the spec: EasyBuild's `EasyConfig.update` appends a
value to a string-valued option (the framework itself is outside this
repository). -/
def ecUpdate (cur add : String) : String :=
  cur ++ " " ++ add

/-- `get_eessi_envvar`: look a variable up in the environment, fatal
error when it is unset. -/
def get_eessi_envvar (env : String → Option String) (name : String) :
    Except String String :=
  match env name with
  | some v => .ok v
  | none => .error ("$" ++ name ++ " is not defined!")

/-- `CUDA_ENABLED_TOOLCHAINS` from the source. -/
def CUDA_ENABLED_TOOLCHAINS : List String :=
  ["fosscuda", "gcccuda", "gimpic", "giolfc", "gmklc", "golfc", "gomklc",
   "gompic", "goolfc", "iccifortcuda", "iimklc", "iimpic", "intelcuda",
   "iomklc", "iompic", "nvompic", "nvpsmpic"]

/-- `cgal_toolchainopts_precise`: on POWER replace the `strict` toolchain
option with `precise`; fatal error when invoked for a non-CGAL easyconfig. -/
def cgal_toolchainopts_precise (arch : Arch) (ec : EC) (_epfx : String) :
    Except String EC :=
  if ec.name = "CGAL" then
    if arch = Arch.POWER then
      .ok { ec with tcStrict := some false, tcPrecise := some true }
    else
      .ok ec
  else
    .error "CGAL-specific hook triggered for non-CGAL easyconfig?!"

/-- `fontconfig_add_fonts`: append the `--with-add-fonts` configure
option; fatal error for a non-fontconfig easyconfig. -/
def fontconfig_add_fonts (ec : EC) ( epfx : String) : Except String EC :=
  if ec.name = "fontconfig" then
    let with_add_fonts :=
      "--with-add-fonts=" ++ joinPath (joinPath (joinPath epfx "usr") "share") "fonts"
    .ok { ec with configopts := ecUpdate ec.configopts with_add_fonts }
  else
    .error "fontconfig-specific hook triggered for non-fontconfig easyconfig?!"

/-- `ucx_eprefix`: append `--with-sysroot` and `--with-rdmacm` configure
options; fatal error for a non-UCX easyconfig. -/
def ucx_eprefix (ec : EC) ( epfx : String) : Except String EC :=
  if ec.name = "UCX" then
    let ec1 := { ec with configopts := ecUpdate ec.configopts ("--with-sysroot=" ++ epfx) }
    .ok { ec1 with
          configopts := ecUpdate ec1.configopts ("--with-rdmacm=" ++ joinPath epfx "usr") }
  else
    .error "UCX-specific hook triggered for non-UCX easyconfig?!"

/-- Ambient build context read by the hooks through framework globals:
the detected CPU architecture, the `optarch` build option and the
detected CPU feature list. -/
structure Ctx where
  arch : Arch
  optarch : Option String
  cpuFeatures : List String
  deriving Repr

/-- `libfabric_disable_psm3_x86_64_generic`: on x86_64 with a generic
`optarch` or a CPU without `avx`, append `--disable-psm3`; fatal error
for a non-libfabric easyconfig. -/
def libfabric_disable_psm3_x86_64_generic (ctx : Ctx) (ec : EC) :
    Except String EC :=
  if ec.name = "libfabric" then
    if ctx.arch = Arch.X86_64 then
      let generic := ctx.optarch = some OPTARCH_GENERIC
      let no_avx := "avx" ∉ ctx.cpuFeatures
      if generic ∨ no_avx then
        .ok { ec with configopts := ecUpdate ec.configopts "--disable-psm3" }
      else .ok ec
    else .ok ec
  else
    .error "libfabric-specific hook triggered for non-libfabric easyconfig?!"

/-- `metabat_preconfigure`: substitute the static zlib reference by the
shared library under the compatibility layer.  The source uses
`re.sub` with the literal pattern `\$EBROOTZLIB/lib/libz.a` (the
unescaped dot being an any-character wildcard); it is modelled as the
intended literal replacement. -/
def metabat_preconfigure (ec : EC) : Except String EC :=
  if ec.name = "MetaBAT" then
    .ok { ec with
          configopts := pyReplace ec.configopts "$EBROOTZLIB/lib/libz.a" "$EPREFIX/usr/lib64/libz.so" }
  else
    .error "MetaBAT-specific hook triggered for non-MetaBAT easyconfig?!"

/-- `wrf_preconfigure`: on aarch64 prepend a `sed` patch command to
`preconfigopts`; fatal error for a non-WRF easyconfig. -/
def wrf_preconfigure (ctx : Ctx) (ec : EC) : Except String EC :=
  if ec.name = "WRF" then
    if ctx.arch = Arch.AARCH64 then
      let cmd := "sed -i 's/Linux x86_64 ppc64le, gfortran/Linux x86_64 aarch64 ppc64le, gfortran/g' arch/configure_new.defaults && "
      .ok { ec with preconfigopts := ecUpdate ec.preconfigopts cmd }
    else .ok ec
  else
    .error "WRF-specific hook triggered for non-WRF easyconfig?!"

/-- One iteration structure of the `for dep in iter(ec_dict["dependencies"])`
loop of `inject_gpu_property`, made explicit: a CPython list iterator keeps
an integer cursor `i` into the (mutating) list, `list.remove` deletes the
first element equal to the one matched, and matching entries are appended
to the build dependencies unless already present.  `fuel` bounds the
recursion; the cursor grows by one per step while the list never grows, so
`deps.length` steps always suffice from cursor `0`. -/
def cudaDepLoopF : Nat → List Dep → List Dep → String → Nat →
    List Dep × List Dep × String
  | 0, deps, bdeps, ver, _ => (deps, bdeps, ver)
  | fuel + 1, deps, bdeps, ver, i =>
      if h : i < deps.length then
        let dep := deps.get ⟨i, h⟩
        if substr "CUDA" dep.1 then
          cudaDepLoopF fuel (deps.erase dep)
            (if dep ∈ bdeps then bdeps else bdeps ++ [dep]) dep.2 (i + 1)
        else
          cudaDepLoopF fuel deps bdeps ver (i + 1)
      else (deps, bdeps, ver)

/-- The first injected module-footer line: `add_property("arch","gpu")`. -/
def gpuPropertyLine : String := "add_property(\"arch\",\"gpu\")"

/-- The second injected module-footer line, carrying the CUDA version. -/
def gpuSetenvLine (v : String) : String :=
  "setenv(\"EESSICUDAVERSION\",\"" ++ v ++ "\")"

/-- The full text block injected into `modluafooter` for CUDA version `v`. -/
def gpuValue (v : String) : String :=
  gpuPropertyLine ++ "\n" ++ gpuSetenvLine v

/-- `inject_gpu_property`: when a dependency is named `CUDA` or the
toolchain is CUDA-enabled, move CUDA dependencies from the runtime to the
build-dependency list and merge the GPU property block into
`modluafooter` (skipping the merge when the block is already contained). -/
def inject_gpu_property (ec : EC) : EC :=
  if "CUDA" ∈ ec.deps.map Prod.fst ∨ ec.toolchainName ∈ CUDA_ENABLED_TOOLCHAINS then
    let r := cudaDepLoopF ec.deps.length ec.deps ec.builddeps "0" 0
    let value := gpuValue r.2.2
    let ec1 := { ec with deps := r.1, builddeps := r.2.1 }
    match ec.modluafooter with
    | some old =>
        if substr value old then ec1
        else { ec1 with modluafooter := some (old ++ "\n" ++ value) }
    | none => { ec1 with modluafooter := some value }
  else ec

/-- The `PARSE_HOOKS` dispatch table (name → handler), as a lookup
function; handlers receive `(ec, eprefix)` as in the source, with the
detected architecture passed through. -/
def PARSE_HOOKS (arch : Arch) (name : String) :
    Option (EC → String → Except String EC) :=
  if name = "CGAL" then some (fun ec e => cgal_toolchainopts_precise arch ec e)
  else if name = "fontconfig" then some (fun ec e => fontconfig_add_fonts ec e)
  else if name = "UCX" then some (fun ec e => ucx_eprefix ec e)
  else none

/-- The key set of `PARSE_HOOKS`. -/
def parseHookNames : List String := ["CGAL", "fontconfig", "UCX"]

/-- The key set of `PRE_CONFIGURE_HOOKS`. -/
def preConfigureHookNames : List String := ["libfabric", "MetaBAT", "WRF"]

/-- The key set of `POST_PACKAGE_HOOKS`. -/
def postPackageHookNames : List String := ["CUDA"]

/-- `parse_hook`: read `$EPREFIX`, dispatch on the software name through
`PARSE_HOOKS`, then unconditionally run the GPU property injector. -/
def parse_hook (env : String → Option String) (arch : Arch) (ec : EC) :
    Except String EC := do
  let e ← get_eessi_envvar env "EPREFIX"
  let ec2 ←
    match PARSE_HOOKS arch ec.name with
    | some f => f ec e
    | none => pure ec
  pure (inject_gpu_property ec2)

/-- The `PRE_CONFIGURE_HOOKS` dispatch table as a lookup function. -/
def PRE_CONFIGURE_HOOKS (ctx : Ctx) (name : String) :
    Option (EC → Except String EC) :=
  if name = "libfabric" then some (libfabric_disable_psm3_x86_64_generic ctx)
  else if name = "MetaBAT" then some metabat_preconfigure
  else if name = "WRF" then some (wrf_preconfigure ctx)
  else none

/-- `pre_configure_hook`: dispatch on the software name through
`PRE_CONFIGURE_HOOKS`; silent no-op for unmatched names. -/
def pre_configure_hook (ctx : Ctx) (ec : EC) : Except String EC :=
  match PRE_CONFIGURE_HOOKS ctx ec.name with
  | some f => f ec
  | none => .ok ec

/-- `get_rpath_override_dirs`: derive the two host-injections rpath
override directories (`lib`, `lib64`) for an MPI family from
`$EESSI_SOFTWARE_PATH` and `$EESSI_PILOT_VERSION`. -/
def get_rpath_override_dirs (env : String → Option String)
    (software_name : String) : Except String (List String) := do
  let sw ← get_eessi_envvar env "EESSI_SOFTWARE_PATH"
  let ver ← get_eessi_envvar env "EESSI_PILOT_VERSION"
  let stub :=
    joinPath (joinPath (joinPath (replaceFirst sw ver (joinPath "host_injections" ver))
      "rpath_overrides") software_name) "system"
  pure (["lib", "lib64"].map (fun x => joinPath stub x))

/-- The state touched by the prepare hooks: the transient
`orig_rpath_override_dirs` attribute on the build-step object (`none` =
attribute absent; its value is the saved build option, itself optional)
and the global `rpath_override_dirs` build option. -/
structure PrepState where
  attr : Option (Option String)
  rpathOverrideDirs : Option String
  deriving DecidableEq, Repr

/-- `pre_prepare_hook`: when the toolchain has an MPI family, compute the
override directories, refuse to run if the transient attribute already
exists, stash the current `rpath_override_dirs` option in the attribute
and extend the option with the override directories. -/
def pre_prepare_hook (env : String → Option String)
    (mpiFamily : Option String) (s : PrepState) : Except String PrepState :=
  if optTruthy mpiFamily then do
    let dirs ← get_rpath_override_dirs env (mpiFamily.getD "")
    if s.attr.isSome then
      .error "self already has attribute orig_rpath_override_dirs! Can't use pre_prepare hook."
    else
      let saved := s.rpathOverrideDirs
      let newDirs :=
        if optTruthy saved then joinColon ([saved.getD ""] ++ dirs)
        else joinColon dirs
      .ok { attr := some saved, rpathOverrideDirs := some newDirs }
  else .ok s

/-- `post_prepare_hook`: when the transient attribute exists, restore the
`rpath_override_dirs` option from it and delete the attribute. -/
def post_prepare_hook (s : PrepState) : PrepState :=
  match s.attr with
  | some v => { attr := none, rpathOverrideDirs := v }
  | none => s

/-- A file found while walking the install tree: containing directory,
basename and whether it is a symlink. -/
structure TreeFile where
  root : String
  filename : String
  isLink : Bool
  deriving DecidableEq, Repr

/-- The full path of a tree file (`os.path.join(root, filename)`). -/
def filePath (f : TreeFile) : String :=
  joinPath f.root f.filename

/-- The final state of one path after the CUDA post-package filter. -/
inductive FSItem where
  /-- An untouched regular file. -/
  | regular (path : String)
  /-- A pre-existing symlink, left alone by the filter. -/
  | link (path : String)
  /-- A freshly created symlink (`ln -s target path`) replacing a
  deleted file. -/
  | symlink (path target : String)
  deriving DecidableEq, Repr

/-- The EULA lines copied between the `2.6. Attachment A` and
`2.7. Attachment B` markers. -/
def eulaBuffer (lines : List String) : List String :=
  (lines.foldl
    (fun (acc : List String × Bool) line =>
      if pyStrip line = "2.6. Attachment A" then (acc.1, true)
      else if pyStrip line = "2.7. Attachment B" then (acc.1, false)
      else if acc.2 then (acc.1 ++ [line], acc.2) else acc)
    ([], false)).1

/-- The file extensions that mark a whitelistable word in the EULA. -/
def fileExtensions : List String := [".so", ".a", ".h", ".bc"]

/-- The filename stems harvested from the EULA attachment: every
whitespace-separated word containing one of the extensions, cut at its
first dot. -/
def harvest (lines : List String) : List String :=
  (eulaBuffer lines).foldl
    (fun acc tmp =>
      acc ++ ((pyWords tmp).filter
        (fun w => fileExtensions.any (fun e => substr e w))).map firstField)
    []

/-- The whitelist built by `cuda_postpackage`: seeded with `EULA`, then
the harvested stems, deduplicated (`list(set(...))`; only membership is
ever used). -/
def cudaWhitelist (lines : List String) : List String :=
  ("EULA" :: harvest lines).eraseDups

/-- The sanity checks on the whitelist: `nvcc` must not appear,
`libcudart` must appear; the first violated check yields the fatal
error. -/
def cudaSanity (wl : List String) : Option String :=
  if "nvcc" ∈ wl then some "Found 'nvcc' in whitelist"
  else if "libcudart" ∉ wl then some "Did not find 'libcudart' in whitelist"
  else none

/-- What the tree walk does to a single file: pre-existing symlinks are
skipped; a regular file whose stem is whitelisted is kept; any other
regular file is deleted and replaced by a symlink whose target is the
path with `versions` replaced by `host_injections`. -/
def processFile (wl : List String) (f : TreeFile) : FSItem :=
  if f.isLink then .link (filePath f)
  else if firstField f.filename ∈ wl then .regular (filePath f)
  else .symlink (filePath f) (pyReplace (filePath f) "versions" "host_injections")

/-- `cuda_postpackage`: harvest the whitelist from the EULA text, run the
sanity checks (any failure aborts before the tree walk, so before any
file is deleted or symlink created), then rewrite the install tree.
The EULA file content and the walked tree are passed explicitly; the
`ln -s` shell invocation is modelled as succeeding. -/
def cuda_postpackage (eulaLines : List String) (files : List TreeFile) :
    Except String (List FSItem) :=
  let wl := cudaWhitelist eulaLines
  match cudaSanity wl with
  | some e => .error e
  | none => .ok (files.map (processFile wl))

/-- The untouched representation of a walked tree (what a no-op
post-package step leaves behind). -/
def filesAsItems (files : List TreeFile) : List FSItem :=
  files.map (fun f => if f.isLink then .link (filePath f) else .regular (filePath f))

/-- `post_package_hook`: dispatch on the software name through
`POST_PACKAGE_HOOKS` (which maps only `CUDA`); silent no-op for
unmatched names. -/
def post_package_hook (ec : EC) (eulaLines : List String)
    (files : List TreeFile) : Except String (EC × List FSItem) :=
  if ec.name = "CUDA" then
    (cuda_postpackage eulaLines files).map (fun items => (ec, items))
  else .ok (ec, filesAsItems files)

theorem isInfixB_append_self (o v : List Char) : isInfixB v (o ++ v) = true := by
  induction o with
  | nil =>
      cases v with
      | nil => rfl
      | cons c t =>
          show isInfixB (c :: t) (c :: t) = true
          unfold isInfixB
          have hp : (c :: t).isPrefixOf (c :: t) = true :=
            List.isPrefixOf_iff_prefix.mpr (List.prefix_refl _)
          simp [hp]
  | cons a o' ih =>
      show isInfixB v (a :: (o' ++ v)) = true
      unfold isInfixB
      simp [ih]

theorem substr_append_self (o v : String) : substr v (o ++ v) = true := by
  unfold substr
  rw [String.data_append]
  exact isInfixB_append_self o.data v.data

theorem substr_self (v : String) : substr v v = true := by
  have h := substr_append_self "" v
  simpa using h

theorem parseHooks_eq_none (arch : Arch) (name : String)
    (h : name ∉ parseHookNames) : PARSE_HOOKS arch name = none := by
  simp only [parseHookNames, List.mem_cons, List.mem_singleton] at h
  push_neg at h
  simp [PARSE_HOOKS, h.1, h.2.1, h.2.2]

theorem preConfigureHooks_eq_none (ctx : Ctx) (name : String)
    (h : name ∉ preConfigureHookNames) : PRE_CONFIGURE_HOOKS ctx name = none := by
  simp only [preConfigureHookNames, List.mem_cons, List.mem_singleton] at h
  push_neg at h
  simp [PRE_CONFIGURE_HOOKS, h.1, h.2.1, h.2.2]

theorem inject_gpu_property_not_fired (ec : EC)
    (h : ¬ ("CUDA" ∈ ec.deps.map Prod.fst ∨
            ec.toolchainName ∈ CUDA_ENABLED_TOOLCHAINS)) :
    inject_gpu_property ec = ec := by
  unfold inject_gpu_property
  rw [if_neg h]

/-- Claim C8: `get_eessi_envvar` returns exactly the string value of the
environment variable when it is set and raises the fatal "not defined"
error when it is unset; the model is a pure function of the environment,
so there is no caching and no default value. -/
theorem claim_C8 (env : String → Option String) (name : String) :
    (∀ v, env name = some v → get_eessi_envvar env name = .ok v)
    ∧ (env name = none →
        get_eessi_envvar env name = .error ("$" ++ name ++ " is not defined!")) := by
  constructor
  · intro v hv
    simp [get_eessi_envvar, hv]
  · intro hv
    simp [get_eessi_envvar, hv]

/-- Witness for claim C8 at a concrete environment: the set variable `X`
is returned verbatim, the unset variable `Y` raises the error. -/
theorem claim_C8_witness :
    ((fun s => if s = "X" then some "42" else none) "X" = some "42")
    ∧ get_eessi_envvar (fun s => if s = "X" then some "42" else none) "X" = .ok "42"
    ∧ get_eessi_envvar (fun s => if s = "X" then some "42" else none) "Y" =
        .error "$Y is not defined!" :=
  ⟨rfl, (claim_C8 _ "X").1 "42" rfl, (claim_C8 _ "Y").2 rfl⟩

/-- Claim C9: when the toolchain has no MPI family (a falsy value), the
pre-prepare hook is a complete no-op — the state (global
`rpath_override_dirs` option included) is returned unchanged and the
transient attribute is never set — and hence, the attribute being absent,
the subsequent post-prepare hook is a no-op as well. -/
theorem claim_C9 (env : String → Option String) (mpiFamily : Option String)
    (s : PrepState) (h : optTruthy mpiFamily = false) :
    pre_prepare_hook env mpiFamily s = .ok s
    ∧ (s.attr = none → post_prepare_hook s = s) := by
  constructor
  · simp [pre_prepare_hook, h]
  · intro ha
    simp [post_prepare_hook, ha]

/-- Witness for claim C9: a toolchain without MPI family (`none`) on a
concrete state. -/
theorem claim_C9_witness :
    optTruthy none = false
    ∧ pre_prepare_hook (fun _ => none) none ⟨none, some "/x"⟩ =
        .ok ⟨none, some "/x"⟩
    ∧ post_prepare_hook ⟨none, some "/x"⟩ = ⟨none, some "/x"⟩ := by
  refine ⟨rfl, ?_, ?_⟩
  · exact (claim_C9 (fun _ => none) none ⟨none, some "/x"⟩ rfl).1
  · exact (claim_C9 (fun _ => none) none ⟨none, some "/x"⟩ rfl).2 rfl

/-- Counterexample to claim C6 as stated: on a non-POWER architecture the
CGAL patcher does NOT apply the toolchain-option changes — the easyconfig
comes back unchanged, with `strict` still `true` and `precise` still
`false` (the source guards the change with
`if get_cpu_architecture() == POWER`). -/
theorem claim_C6_counterexample :
    cgal_toolchainopts_precise Arch.X86_64
      { name := "CGAL", deps := [], builddeps := [], toolchainName := "foss",
        modluafooter := none, tcStrict := some true, tcPrecise := some false,
        configopts := "", preconfigopts := "" } "/pfx" =
      .ok { name := "CGAL", deps := [], builddeps := [], toolchainName := "foss",
            modluafooter := none, tcStrict := some true, tcPrecise := some false,
            configopts := "", preconfigopts := "" }
    ∧ (some true : Option Bool) ≠ some false := by
  exact ⟨rfl, by decide⟩

/-- Claim C6 (amended): for a CGAL easyconfig, the patcher sets
`toolchainopts["strict"] := False` and `toolchainopts["precise"] := True`
on POWER, and leaves the toolchain options unchanged on any other
architecture (the change is guarded by an architecture check). -/
theorem claim_C6_amended (arch : Arch) (ec : EC) (ep : String)
    (h : ec.name = "CGAL") :
    (arch = Arch.POWER →
      cgal_toolchainopts_precise arch ec ep =
        .ok { ec with tcStrict := some false, tcPrecise := some true })
    ∧ (arch ≠ Arch.POWER → cgal_toolchainopts_precise arch ec ep = .ok ec) := by
  constructor
  · intro hp
    simp [cgal_toolchainopts_precise, h, hp]
  · intro hp
    simp [cgal_toolchainopts_precise, h, hp]

/-- Witness for claim C6 (amended): on POWER, a concrete CGAL easyconfig
gets `strict := false, precise := true`. -/
theorem claim_C6_witness :
    (EC.name { name := "CGAL", deps := [], builddeps := [], toolchainName := "foss",
               modluafooter := none, tcStrict := some true, tcPrecise := some false,
               configopts := "", preconfigopts := "" } = "CGAL")
    ∧ cgal_toolchainopts_precise Arch.POWER
        { name := "CGAL", deps := [], builddeps := [], toolchainName := "foss",
          modluafooter := none, tcStrict := some true, tcPrecise := some false,
          configopts := "", preconfigopts := "" } "/pfx" =
        .ok { name := "CGAL", deps := [], builddeps := [], toolchainName := "foss",
              modluafooter := none, tcStrict := some false, tcPrecise := some true,
              configopts := "", preconfigopts := "" } :=
  ⟨rfl, (claim_C6_amended Arch.POWER _ "/pfx" rfl).1 rfl⟩

theorem joinPath_of_ne_nil (a b : String) (ha : a.data ≠ [])
    (hlast : a.data.getLast? ≠ some '/') (hb : isAbs b = false) :
    joinPath a b = a ++ "/" ++ b := by
  simp [joinPath, ha, hlast, hb]

theorem data_append_ne_nil (a b : String) (hb : b.data ≠ []) :
    (a ++ b).data ≠ [] := by
  rw [String.data_append]
  exact List.append_ne_nil_of_right_ne_nil _ hb

theorem getLast_data_append (a b : String) (hb : b.data ≠ []) :
    (a ++ b).data.getLast? = b.data.getLast? := by
  rw [String.data_append]
  exact List.getLast?_append_of_ne_nil _ hb

/-- Claim C7: the fontconfig patcher appends exactly
`--with-add-fonts=<eprefix>/usr/share/fonts` to `configopts`, the UCX
patcher appends exactly `--with-sysroot=<eprefix>` and
`--with-rdmacm=<eprefix>/usr`, and invoking either patcher on an
easyconfig with any other name raises the fatal mismatch error (the
error result carries no easyconfig, so the configuration is untouched).
The prefix is assumed nonempty and not ending in a path separator, as
`$EPREFIX` values are. -/
theorem claim_C7 (ep : String) (ec : EC)
    (h1 : ep.data ≠ []) (h2 : ep.data.getLast? ≠ some '/') :
    (ec.name = "fontconfig" →
      fontconfig_add_fonts ec ep =
        .ok { ec with configopts :=
                ecUpdate ec.configopts ("--with-add-fonts=" ++ ep ++ "/usr/share/fonts") })
    ∧ (ec.name = "UCX" →
      ucx_eprefix ec ep =
        .ok { ec with configopts :=
                (ecUpdate (ecUpdate ec.configopts ("--with-sysroot=" ++ ep))
                  ("--with-rdmacm=" ++ ep ++ "/usr")) })
    ∧ (ec.name ≠ "fontconfig" → ∃ er, fontconfig_add_fonts ec ep = .error er)
    ∧ (ec.name ≠ "UCX" → ∃ er, ucx_eprefix ec ep = .error er) := by
  have j1 : joinPath ep "usr" = ep ++ "/" ++ "usr" :=
    joinPath_of_ne_nil ep "usr" h1 h2 (by decide)
  have n1 : (ep ++ "/" ++ "usr").data ≠ [] :=
    data_append_ne_nil _ "usr" (by decide)
  have g1 : (ep ++ "/" ++ "usr").data.getLast? ≠ some '/' := by
    rw [getLast_data_append _ "usr" (by decide)]
    decide
  have j2 : joinPath (ep ++ "/" ++ "usr") "share" =
      ep ++ "/" ++ "usr" ++ "/" ++ "share" :=
    joinPath_of_ne_nil _ "share" n1 g1 (by decide)
  have n2 : (ep ++ "/" ++ "usr" ++ "/" ++ "share").data ≠ [] :=
    data_append_ne_nil _ "share" (by decide)
  have g2 : (ep ++ "/" ++ "usr" ++ "/" ++ "share").data.getLast? ≠ some '/' := by
    rw [getLast_data_append _ "share" (by decide)]
    decide
  have j3 : joinPath (ep ++ "/" ++ "usr" ++ "/" ++ "share") "fonts" =
      ep ++ "/" ++ "usr" ++ "/" ++ "share" ++ "/" ++ "fonts" :=
    joinPath_of_ne_nil _ "fonts" n2 g2 (by decide)
  have efonts : ep ++ "/" ++ "usr" ++ "/" ++ "share" ++ "/" ++ "fonts" =
      ep ++ "/usr/share/fonts" := by
    apply String.ext
    simp only [String.data_append, List.append_assoc]
    norm_num
  have eusr : ep ++ "/" ++ "usr" = ep ++ "/usr" := by
    apply String.ext
    simp only [String.data_append, List.append_assoc]
    norm_num
  refine ⟨?_, ?_, ?_, ?_⟩
  · intro hn
    simp only [fontconfig_add_fonts, hn, if_pos, j1, j2, j3, efonts]
    rw [String.append_assoc]
  · intro hn
    simp only [ ucx_eprefix, hn, if_pos, j1, eusr]
    rw [String.append_assoc]
  · intro hn
    simp [fontconfig_add_fonts, hn]
  · intro hn
    simp [ ucx_eprefix, hn]

/-- Witness for claim C7 at the concrete prefix `/pfx` and a concrete
fontconfig easyconfig: the exact flag is appended, and the UCX patcher
rejects the non-UCX name. -/
theorem claim_C7_witness :
    (("/pfx" : String).data ≠ [])
    ∧ (("/pfx" : String).data.getLast? ≠ some '/')
    ∧ ((fontconfig_add_fonts
          { name := "fontconfig", deps := [], builddeps := [], toolchainName := "foss",
            modluafooter := none, tcStrict := none, tcPrecise := none,
            configopts := "co", preconfigopts := "" } "/pfx" =
        .ok { name := "fontconfig", deps := [], builddeps := [], toolchainName := "foss",
              modluafooter := none, tcStrict := none, tcPrecise := none,
              configopts := ecUpdate "co" ("--with-add-fonts=" ++ "/pfx" ++ "/usr/share/fonts"),
              preconfigopts := "" })
      ∧ (∃ er, ucx_eprefix
          { name := "fontconfig", deps := [], builddeps := [], toolchainName := "foss",
            modluafooter := none, tcStrict := none, tcPrecise := none,
            configopts := "co", preconfigopts := "" } "/pfx" = .error er)) := by
  refine ⟨by decide, by decide, ?_, ?_⟩
  · exact (claim_C7 "/pfx" _ (by decide) (by decide)).1 rfl
  · exact (claim_C7 "/pfx" _ (by decide) (by decide)).2.2.2 (by decide)

/-- Claim C2: whenever the whitelist parsed from the EULA text contains
`nvcc`, or fails to contain `libcudart`, the CUDA post-package filter
raises the fatal sanity error; the error is produced before the tree
walk, so it does not depend on the install tree at all and no file is
deleted and no symlink is created. -/
theorem claim_C2 (lines : List String) (files : List TreeFile)
    (h : "nvcc" ∈ cudaWhitelist lines ∨ "libcudart" ∉ cudaWhitelist lines) :
    ∃ e, cuda_postpackage lines files = .error e
      ∧ ∀ files2, cuda_postpackage lines files2 = .error e := by
  by_cases hn : "nvcc" ∈ cudaWhitelist lines
  · refine ⟨"Found 'nvcc' in whitelist", ?_, ?_⟩
    · simp [cuda_postpackage, cudaSanity, hn]
    · intro files2
      simp [cuda_postpackage, cudaSanity, hn]
  · have hl : "libcudart" ∉ cudaWhitelist lines := h.resolve_left hn
    refine ⟨"Did not find 'libcudart' in whitelist", ?_, ?_⟩
    · simp [cuda_postpackage, cudaSanity, hn, hl]
    · intro files2
      simp [cuda_postpackage, cudaSanity, hn, hl]

/-- Witness for claim C2: an EULA text whose attachment section names
`nvcc.so` (so `nvcc` lands in the whitelist) makes the filter fail on a
concrete tree. -/
theorem claim_C2_witness :
    ("nvcc" ∈ cudaWhitelist ["2.6. Attachment A", "nvcc.so libcudart.so", "2.7. Attachment B"]
      ∨ "libcudart" ∉ cudaWhitelist ["2.6. Attachment A", "nvcc.so libcudart.so", "2.7. Attachment B"])
    ∧ ∃ e, cuda_postpackage ["2.6. Attachment A", "nvcc.so libcudart.so", "2.7. Attachment B"]
          [⟨"/inst/versions/cuda", "cublas.so", false⟩] = .error e
        ∧ ∀ files2,
            cuda_postpackage ["2.6. Attachment A", "nvcc.so libcudart.so", "2.7. Attachment B"]
              files2 = .error e :=
  ⟨Or.inl (by decide),
   claim_C2 ["2.6. Attachment A", "nvcc.so libcudart.so", "2.7. Attachment B"]
     [⟨"/inst/versions/cuda", "cublas.so", false⟩] (Or.inl (by decide))⟩

/-- Counterexample to claim C3 as stated: the code seeds its whitelist
with the extra stem `EULA` before harvesting the attachment section, so
the regular file `EULA.txt` — whose stem is NOT in the whitelist
harvested from the text between the markers — survives as a regular file
instead of being deleted and replaced by a symlink. -/
theorem claim_C3_counterexample :
    cuda_postpackage ["2.6. Attachment A", "a libcudart.so b", "2.7. Attachment B"]
        [⟨"/inst/versions/cuda", "EULA.txt", false⟩] =
      .ok [FSItem.regular "/inst/versions/cuda/EULA.txt"]
    ∧ firstField "EULA.txt" ∉
        harvest ["2.6. Attachment A", "a libcudart.so b", "2.7. Attachment B"]
    ∧ (FSItem.regular "/inst/versions/cuda/EULA.txt" ≠
        FSItem.symlink "/inst/versions/cuda/EULA.txt" "/inst/host_injections/cuda/EULA.txt") := by
  refine ⟨rfl, by decide, by decide⟩

/-- Claim C3 (amended): when the CUDA post-package filter completes, a
regular file whose basename stem is in the code's whitelist — the stems
harvested between the `Attachment A`/`Attachment B` markers TOGETHER
WITH the seed entry `EULA` — remains a regular file, and a regular file
whose stem is not in that whitelist is deleted and replaced by a symlink
whose target is the original path with `versions` replaced by
`host_injections`. -/
theorem claim_C3_amended (lines : List String) (files : List TreeFile)
    (items : List FSItem) (h : cuda_postpackage lines files = .ok items) :
    ∀ (i : Nat) (f : TreeFile), files[i]? = some f → f.isLink = false →
      ((firstField f.filename ∈ cudaWhitelist lines →
          items[i]? = some (FSItem.regular (filePath f)))
       ∧ (firstField f.filename ∉ cudaWhitelist lines →
          items[i]? = some (FSItem.symlink (filePath f)
            (pyReplace (filePath f) "versions" "host_injections")))) := by
  have hitems : items = files.map (processFile (cudaWhitelist lines)) := by
    rcases hs : cudaSanity (cudaWhitelist lines) with _ | e
    · simp only [cuda_postpackage, hs] at h
      exact (Except.ok.inj h).symm
    · simp only [cuda_postpackage, hs] at h
      cases h
  intro i f hf hlink
  subst hitems
  constructor
  · intro hmem
    rw [List.getElem?_map, hf]
    simp [processFile, hlink, hmem]
  · intro hmem
    rw [List.getElem?_map, hf]
    simp [processFile, hlink, hmem]

/-- Witness for claim C3 (amended): a concrete EULA and a tree with one
whitelisted and one non-whitelisted regular file. -/
theorem claim_C3_witness :
    (cuda_postpackage ["2.6. Attachment A", "a libcudart.so b", "2.7. Attachment B"]
        [⟨"/inst/versions/cuda", "libcudart.so.11", false⟩,
         ⟨"/inst/versions/cuda/bin", "nvprof", false⟩] =
      .ok [FSItem.regular "/inst/versions/cuda/libcudart.so.11",
           FSItem.symlink "/inst/versions/cuda/bin/nvprof" "/inst/host_injections/cuda/bin/nvprof"])
    ∧ ([⟨"/inst/versions/cuda", "libcudart.so.11", false⟩,
        (⟨"/inst/versions/cuda/bin", "nvprof", false⟩ : TreeFile)][0]? =
          some ⟨"/inst/versions/cuda", "libcudart.so.11", false⟩)
    ∧ (TreeFile.isLink ⟨"/inst/versions/cuda", "libcudart.so.11", false⟩ = false)
    ∧ ([FSItem.regular "/inst/versions/cuda/libcudart.so.11",
        FSItem.symlink "/inst/versions/cuda/bin/nvprof"
          "/inst/host_injections/cuda/bin/nvprof"][0]? =
        some (FSItem.regular "/inst/versions/cuda/libcudart.so.11")) := by
  refine ⟨rfl, rfl, rfl, ?_⟩
  have h := claim_C3_amended
    ["2.6. Attachment A", "a libcudart.so b", "2.7. Attachment B"]
    [⟨"/inst/versions/cuda", "libcudart.so.11", false⟩,
     ⟨"/inst/versions/cuda/bin", "nvprof", false⟩]
    [FSItem.regular "/inst/versions/cuda/libcudart.so.11",
     FSItem.symlink "/inst/versions/cuda/bin/nvprof" "/inst/host_injections/cuda/bin/nvprof"]
    rfl 0 ⟨"/inst/versions/cuda", "libcudart.so.11", false⟩ rfl rfl
  have h2 := h.1 (by decide)
  exact h2

/-- Counterexample to claim C5 as stated: on a build step that already
carries the transient attribute (with a stale value) while the toolchain
has no MPI family, pre-prepare succeeds as a no-op, yet the subsequent
post-prepare overwrites the global `rpath_override_dirs` option with the
stale attribute value instead of its pre-pre-prepare value. -/
theorem claim_C5_counterexample :
    pre_prepare_hook (fun _ => none) none ⟨some (some "/stale"), some "/orig"⟩ =
      .ok ⟨some (some "/stale"), some "/orig"⟩
    ∧ (post_prepare_hook ⟨some (some "/stale"), some "/orig"⟩).rpathOverrideDirs ≠
        some "/orig" := by
  exact ⟨rfl, by decide⟩

/-- Claim C5 (amended): for every build-step state that does not already
carry the transient `orig_rpath_override_dirs` attribute (when the
toolchain has an MPI family, pre-prepare's success already implies
this), running pre-prepare followed by post-prepare is a round trip:
afterwards the attribute is absent and the global `rpath_override_dirs`
build option equals its value from before pre-prepare. -/
theorem claim_C5_amended (env : String → Option String)
    (mpiFamily : Option String) (s s' : PrepState) (hattr : s.attr = none)
    (h : pre_prepare_hook env mpiFamily s = .ok s') :
    (post_prepare_hook s').attr = none
    ∧ (post_prepare_hook s').rpathOverrideDirs = s.rpathOverrideDirs := by
  cases ht : optTruthy mpiFamily with
  | true =>
      rcases hd : get_rpath_override_dirs env (mpiFamily.getD "") with e | dirs
      · simp only [pre_prepare_hook, ht, if_true, hd, Bind.bind, Except.bind] at h
        cases h
      · simp only [pre_prepare_hook, ht, if_true, hd, Bind.bind, Except.bind, hattr,
          Option.isSome_none, Bool.false_eq_true, if_false] at h
        have hs := Except.ok.inj h
        subst hs
        simp [post_prepare_hook]
  | false =>
      simp only [pre_prepare_hook, ht, Bool.false_eq_true, if_false] at h
      have hs := Except.ok.inj h
      subst hs
      simp [post_prepare_hook, hattr]

/-- Witness for claim C5 (amended): a concrete MPI toolchain and
environment; pre-prepare stashes the original option value and
post-prepare restores it. -/
theorem claim_C5_witness :
    (PrepState.attr ⟨none, some "/orig"⟩ = none)
    ∧ pre_prepare_hook
        (fun v => if v = "EESSI_SOFTWARE_PATH" then some "/sw/versions/2021.06"
                  else if v = "EESSI_PILOT_VERSION" then some "2021.06" else none)
        (some "OpenMPI") ⟨none, some "/orig"⟩ =
        .ok ⟨some (some "/orig"),
             some "/orig:/sw/versions/host_injections/2021.06/rpath_overrides/OpenMPI/system/lib:/sw/versions/host_injections/2021.06/rpath_overrides/OpenMPI/system/lib64"⟩
    ∧ (post_prepare_hook
        ⟨some (some "/orig"),
         some "/orig:/sw/versions/host_injections/2021.06/rpath_overrides/OpenMPI/system/lib:/sw/versions/host_injections/2021.06/rpath_overrides/OpenMPI/system/lib64"⟩).attr = none
    ∧ (post_prepare_hook
        ⟨some (some "/orig"),
         some "/orig:/sw/versions/host_injections/2021.06/rpath_overrides/OpenMPI/system/lib:/sw/versions/host_injections/2021.06/rpath_overrides/OpenMPI/system/lib64"⟩).rpathOverrideDirs =
        some "/orig" := by
  refine ⟨rfl, rfl, ?_⟩
  exact claim_C5_amended
    (fun v => if v = "EESSI_SOFTWARE_PATH" then some "/sw/versions/2021.06"
              else if v = "EESSI_PILOT_VERSION" then some "2021.06" else none)
    (some "OpenMPI") ⟨none, some "/orig"⟩ _ rfl rfl

/-- Counterexample to claim C1 as stated: a package whose name is not in
the parse-hook dispatch table but whose dependencies include CUDA does
NOT come out of the parse hook unchanged — the unconditional GPU
Property Injector moves the CUDA dependency and injects `modluafooter`. -/
theorem claim_C1_counterexample :
    (EC.name { name := "Foo", deps := [("CUDA", "11.4")], builddeps := [],
               toolchainName := "foss", modluafooter := none, tcStrict := none,
               tcPrecise := none, configopts := "", preconfigopts := "" } ∉ parseHookNames)
    ∧ parse_hook (fun v => if v = "EPREFIX" then some "/pfx" else none) Arch.X86_64
        { name := "Foo", deps := [("CUDA", "11.4")], builddeps := [],
          toolchainName := "foss", modluafooter := none, tcStrict := none,
          tcPrecise := none, configopts := "", preconfigopts := "" } =
        .ok { name := "Foo", deps := [], builddeps := [("CUDA", "11.4")],
              toolchainName := "foss",
              modluafooter := some "add_property(\"arch\",\"gpu\")\nsetenv(\"EESSICUDAVERSION\",\"11.4\")",
              tcStrict := none, tcPrecise := none, configopts := "", preconfigopts := "" }
    ∧ ({ name := "Foo", deps := [], builddeps := [("CUDA", "11.4")],
         toolchainName := "foss",
         modluafooter := some "add_property(\"arch\",\"gpu\")\nsetenv(\"EESSICUDAVERSION\",\"11.4\")",
         tcStrict := none, tcPrecise := none, configopts := "", preconfigopts := "" } : EC) ≠
       { name := "Foo", deps := [("CUDA", "11.4")], builddeps := [],
         toolchainName := "foss", modluafooter := none, tcStrict := none,
         tcPrecise := none, configopts := "", preconfigopts := "" } := by
  exact ⟨by decide, rfl, by decide⟩

/-- Claim C1 (amended): a package whose name is not a key of the
pre-configure or post-package dispatch table passes through that hook
unchanged; for the parse hook the same holds provided additionally that
the GPU Property Injector does not fire (no dependency named `CUDA` and
a toolchain outside the CUDA-enabled list), since the injector runs on
every package regardless of name. -/
theorem claim_C1_amended (env : String → Option String) (arch : Arch)
    (ctx : Ctx) (ec : EC) (ep : String) (lines : List String)
    (files : List TreeFile) (henv : env "EPREFIX" = some ep) :
    (ec.name ∉ parseHookNames →
      ¬ ("CUDA" ∈ ec.deps.map Prod.fst ∨ ec.toolchainName ∈ CUDA_ENABLED_TOOLCHAINS) →
      parse_hook env arch ec = .ok ec)
    ∧ (ec.name ∉ preConfigureHookNames → pre_configure_hook ctx ec = .ok ec)
    ∧ (ec.name ∉ postPackageHookNames →
        post_package_hook ec lines files = .ok (ec, filesAsItems files)) := by
  refine ⟨?_, ?_, ?_⟩
  · intro h1 h2
    simp [parse_hook, get_eessi_envvar, henv, parseHooks_eq_none arch ec.name h1,
      inject_gpu_property_not_fired ec h2]
  · intro h1
    simp [pre_configure_hook, preConfigureHooks_eq_none ctx ec.name h1]
  · intro h1
    simp only [postPackageHookNames, List.mem_singleton] at h1
    simp [post_package_hook, h1]

/-- Witness for claim C1 (amended): a package `Foo` outside every
dispatch table, without CUDA, passes through all three hooks unchanged. -/
theorem claim_C1_witness :
    ((fun v => if v = "EPREFIX" then some "/pfx" else none) "EPREFIX" = some "/pfx")
    ∧ parse_hook (fun v => if v = "EPREFIX" then some "/pfx" else none) Arch.X86_64
        { name := "Foo", deps := [("zlib", "1.2")], builddeps := [],
          toolchainName := "foss", modluafooter := none, tcStrict := none,
          tcPrecise := none, configopts := "", preconfigopts := "" } =
        .ok { name := "Foo", deps := [("zlib", "1.2")], builddeps := [],
              toolchainName := "foss", modluafooter := none, tcStrict := none,
              tcPrecise := none, configopts := "", preconfigopts := "" }
    ∧ pre_configure_hook ⟨Arch.X86_64, none, []⟩
        { name := "Foo", deps := [("zlib", "1.2")], builddeps := [],
          toolchainName := "foss", modluafooter := none, tcStrict := none,
          tcPrecise := none, configopts := "", preconfigopts := "" } =
        .ok { name := "Foo", deps := [("zlib", "1.2")], builddeps := [],
              toolchainName := "foss", modluafooter := none, tcStrict := none,
              tcPrecise := none, configopts := "", preconfigopts := "" }
    ∧ post_package_hook
        { name := "Foo", deps := [("zlib", "1.2")], builddeps := [],
          toolchainName := "foss", modluafooter := none, tcStrict := none,
          tcPrecise := none, configopts := "", preconfigopts := "" }
        ["eula"] [⟨"/r", "f.so", false⟩] =
        .ok ({ name := "Foo", deps := [("zlib", "1.2")], builddeps := [],
               toolchainName := "foss", modluafooter := none, tcStrict := none,
               tcPrecise := none, configopts := "", preconfigopts := "" },
             filesAsItems [⟨"/r", "f.so", false⟩]) := by
  have h := claim_C1_amended (fun v => if v = "EPREFIX" then some "/pfx" else none)
    Arch.X86_64 ⟨Arch.X86_64, none, []⟩
    { name := "Foo", deps := [("zlib", "1.2")], builddeps := [],
      toolchainName := "foss", modluafooter := none, tcStrict := none,
      tcPrecise := none, configopts := "", preconfigopts := "" }
    "/pfx" ["eula"] [⟨"/r", "f.so", false⟩] rfl
  exact ⟨rfl, h.1 (by decide) (by decide), h.2.1 (by decide), h.2.2 (by decide)⟩

theorem cudaDepLoopF_out (f : Nat) (deps bdeps : List Dep) (ver : String)
    (i : Nat) (h : deps.length ≤ i) :
    cudaDepLoopF f deps bdeps ver i = (deps, bdeps, ver) := by
  cases f with
  | zero => rfl
  | succ f =>
      simp only [cudaDepLoopF, dif_neg (Nat.not_lt.mpr h)]

theorem cudaDepLoopF_fuel (f1 : Nat) : ∀ (f2 : Nat) (deps bdeps : List Dep)
    (ver : String) (i : Nat), deps.length - i ≤ f1 → deps.length - i ≤ f2 →
    cudaDepLoopF f1 deps bdeps ver i = cudaDepLoopF f2 deps bdeps ver i := by
  induction f1 with
  | zero =>
      intro f2 deps bdeps ver i h1 _
      have hi : deps.length ≤ i := by omega
      rw [cudaDepLoopF_out 0 deps bdeps ver i hi,
        cudaDepLoopF_out f2 deps bdeps ver i hi]
  | succ f1 ih =>
      intro f2 deps bdeps ver i h1 h2
      by_cases hi : i < deps.length
      · obtain ⟨f2', rfl⟩ : ∃ f2', f2 = f2' + 1 := by
          cases f2 with
          | zero => omega
          | succ n => exact ⟨n, rfl⟩
        have hlen := List.length_erase_of_mem (List.get_mem deps i hi)
        simp only [cudaDepLoopF, dif_pos hi]
        by_cases hm : substr "CUDA" (deps.get ⟨i, hi⟩).1 = true
        · rw [if_pos hm, if_pos hm]
          apply ih
          · omega
          · omega
        · rw [if_neg hm, if_neg hm]
          apply ih
          · omega
          · omega
      · rw [cudaDepLoopF_out _ deps bdeps ver i (by omega),
          cudaDepLoopF_out f2 deps bdeps ver i (by omega)]

theorem cudaDepLoopF_noMatch (f : Nat) : ∀ (deps bdeps : List Dep) (ver : String)
    (i : Nat), deps.length - i ≤ f →
    (∀ (j : Nat) (hj : j < deps.length), i ≤ j →
      substr "CUDA" (deps.get ⟨j, hj⟩).1 = false) →
    cudaDepLoopF f deps bdeps ver i = (deps, bdeps, ver) := by
  induction f with
  | zero =>
      intro deps bdeps ver i _ _
      rfl
  | succ f ih =>
      intro deps bdeps ver i h1 hnm
      by_cases hi : i < deps.length
      · have hm := hnm i hi (le_refl i)
        simp only [cudaDepLoopF, dif_pos hi, hm, Bool.false_eq_true, if_false]
        apply ih
        · omega
        · intro j hj hij
          exact hnm j hj (by omega)
      · exact cudaDepLoopF_out _ deps bdeps ver i (by omega)

theorem cudaDepLoopF_skip (f1 : Nat) : ∀ (f2 : Nat) (deps bdeps : List Dep)
    (ver : String) (i k : Nat), i ≤ k → k ≤ deps.length →
    (∀ (j : Nat) (hj : j < deps.length), i ≤ j → j < k →
      substr "CUDA" (deps.get ⟨j, hj⟩).1 = false) →
    deps.length - i ≤ f1 → deps.length - k ≤ f2 →
    cudaDepLoopF f1 deps bdeps ver i = cudaDepLoopF f2 deps bdeps ver k := by
  induction f1 with
  | zero =>
      intro f2 deps bdeps ver i k hik hk _ h1 h2
      obtain rfl : i = k := by omega
      exact cudaDepLoopF_fuel 0 f2 deps bdeps ver i h1 h2
  | succ f1 ih =>
      intro f2 deps bdeps ver i k hik hk hnm h1 h2
      rcases Nat.eq_or_lt_of_le hik with rfl | hlt
      · exact cudaDepLoopF_fuel (f1 + 1) f2 deps bdeps ver i h1 h2
      · have hi : i < deps.length := by omega
        have hm := hnm i hi (le_refl i) hlt
        simp only [cudaDepLoopF, dif_pos hi, hm, Bool.false_eq_true, if_false]
        refine ih f2 deps bdeps ver (i + 1) k (by omega) hk ?_ (by omega) h2
        intro j hj hij hjk
        exact hnm j hj (by omega) hjk

theorem cudaDepLoopF_noMatchAll (deps bdeps : List Dep) (ver : String)
    (h : ∀ d ∈ deps, substr "CUDA" d.1 = false) :
    cudaDepLoopF deps.length deps bdeps ver 0 = (deps, bdeps, ver) := by
  apply cudaDepLoopF_noMatch
  · omega
  · intro j hj _
    exact h _ (List.get_mem deps j hj)

theorem cudaDepLoop_eval (pre post : List Dep) (c : Dep) (b : List Dep)
    (v0 : String) (hc : substr "CUDA" c.1 = true)
    (hpre : ∀ d ∈ pre, substr "CUDA" d.1 = false)
    (hpost : ∀ d ∈ post, substr "CUDA" d.1 = false) :
    cudaDepLoopF (pre ++ c :: post).length (pre ++ c :: post) b v0 0 =
      (pre ++ post, if c ∈ b then b else b ++ [c], c.2) := by
  have hcpre : c ∉ pre := by
    intro hmem
    rw [hpre c hmem] at hc
    cases hc
  have hL : (pre ++ c :: post).length = pre.length + (post.length + 1) := by
    simp
  have hkv : pre.length < (pre ++ c :: post).length := by omega
  have hstep1 : cudaDepLoopF (pre ++ c :: post).length (pre ++ c :: post) b v0 0 =
      cudaDepLoopF (post.length + 1) (pre ++ c :: post) b v0 pre.length := by
    refine cudaDepLoopF_skip _ _ _ _ _ 0 pre.length (Nat.zero_le _) (by omega) ?_
      (by omega) (by omega)
    intro j hj _ hjk
    have hjp : j < pre.length := hjk
    have hget : (pre ++ c :: post).get ⟨j, hj⟩ = pre.get ⟨j, hjp⟩ := by
      simp [List.get_eq_getElem, List.getElem_append_left hjp]
    rw [hget]
    exact hpre _ (List.get_mem pre j hjp)
  have hgetc : (pre ++ c :: post).get ⟨pre.length, hkv⟩ = c := by
    simp [List.get_eq_getElem, List.getElem_append_right (le_refl pre.length)]
  have herase : (pre ++ c :: post).erase c = pre ++ post := by
    rw [List.erase_append_right _ hcpre, List.erase_cons_head]
  have hstep2 : cudaDepLoopF (post.length + 1) (pre ++ c :: post) b v0 pre.length =
      cudaDepLoopF post.length (pre ++ post)
        (if c ∈ b then b else b ++ [c]) c.2 (pre.length + 1) := by
    simp only [cudaDepLoopF, dif_pos hkv, hgetc, hc, if_true, herase]
  have hstep3 : cudaDepLoopF post.length (pre ++ post)
      (if c ∈ b then b else b ++ [c]) c.2 (pre.length + 1) =
      (pre ++ post, if c ∈ b then b else b ++ [c], c.2) := by
    apply cudaDepLoopF_noMatch
    · simp only [List.length_append]
      omega
    · intro j hj hij
      have hjlen : j < pre.length + post.length := by
        simpa using hj
      have hple : pre.length ≤ j := by omega
      have hget : (pre ++ post).get ⟨j, hj⟩ =
          post.get ⟨j - pre.length, by omega⟩ := by
        simp [List.get_eq_getElem, List.getElem_append_right hple]
      rw [hget]
      exact hpost _ (List.get_mem post _ _)
  rw [hstep1, hstep2, hstep3]

theorem inject_fired_eq (ec : EC)
    (hfire : "CUDA" ∈ ec.deps.map Prod.fst ∨
      ec.toolchainName ∈ CUDA_ENABLED_TOOLCHAINS) :
    ∃ m, inject_gpu_property ec =
        { ec with deps := (cudaDepLoopF ec.deps.length ec.deps ec.builddeps "0" 0).1,
                  builddeps := (cudaDepLoopF ec.deps.length ec.deps ec.builddeps "0" 0).2.1,
                  modluafooter := some m }
      ∧ substr (gpuValue (cudaDepLoopF ec.deps.length ec.deps ec.builddeps "0" 0).2.2) m
          = true := by
  obtain ⟨n, d, bd, tc, mf, ts, tp, co, pc⟩ := ec
  simp only at hfire
  rcases mf with _ | old
  · refine ⟨gpuValue (cudaDepLoopF d.length d bd "0" 0).2.2, ?_, substr_self _⟩
    simp [inject_gpu_property, if_pos hfire]
  · by_cases hsub :
      substr (gpuValue (cudaDepLoopF d.length d bd "0" 0).2.2) old = true
    · refine ⟨old, ?_, hsub⟩
      simp [inject_gpu_property, if_pos hfire, hsub]
    · refine ⟨old ++ "\n" ++ gpuValue (cudaDepLoopF d.length d bd "0" 0).2.2, ?_,
        substr_append_self _ _⟩
      simp [inject_gpu_property, if_pos hfire, hsub]

/-- Counterexample to claim C4 as stated: with TWO identical CUDA
dependencies (the claim quantifies over every dependency list containing
a `("CUDA", "11.4")` entry), the remove-inside-iteration pattern of the
source skips the second entry, so a CUDA entry survives in the runtime
dependency list. -/
theorem claim_C4_counterexample :
    (("CUDA", "11.4") ∈ EC.deps
      { name := "Foo", deps := [("CUDA", "11.4"), ("CUDA", "11.4")], builddeps := [],
        toolchainName := "foss", modluafooter := none, tcStrict := none,
        tcPrecise := none, configopts := "", preconfigopts := "" })
    ∧ (inject_gpu_property
        { name := "Foo", deps := [("CUDA", "11.4"), ("CUDA", "11.4")], builddeps := [],
          toolchainName := "foss", modluafooter := none, tcStrict := none,
          tcPrecise := none, configopts := "", preconfigopts := "" }).deps =
        [("CUDA", "11.4")]
    ∧ (("CUDA", "11.4") ∈ (inject_gpu_property
        { name := "Foo", deps := [("CUDA", "11.4"), ("CUDA", "11.4")], builddeps := [],
          toolchainName := "foss", modluafooter := none, tcStrict := none,
          tcPrecise := none, configopts := "", preconfigopts := "" }).deps) := by
  exact ⟨by decide, rfl, by decide⟩

/-- Claim C4 (amended): for a dependency list containing exactly one
entry whose name contains `CUDA` — the entry `("CUDA", "11.4")` — and a
build-dependency list not already containing it, the GPU Property
Injector removes it from the runtime list, appends it exactly once to
the build-dependency list (a repeated invocation adds no duplicate), and
`modluafooter` ends up containing both the `add_property("arch","gpu")`
line and the setenv line carrying `EESSICUDAVERSION` with value
`11.4`. -/
theorem claim_C4_amended (ec : EC) (pre post : List Dep)
    (hdeps : ec.deps = pre ++ ("CUDA", "11.4") :: post)
    (hpre : ∀ d ∈ pre, substr "CUDA" d.1 = false)
    (hpost : ∀ d ∈ post, substr "CUDA" d.1 = false)
    (hb : ("CUDA", "11.4") ∉ ec.builddeps) :
    (inject_gpu_property ec).deps = pre ++ post
    ∧ (inject_gpu_property ec).builddeps = ec.builddeps ++ [("CUDA", "11.4")]
    ∧ (inject_gpu_property ec).builddeps.count ("CUDA", "11.4") = 1
    ∧ (inject_gpu_property (inject_gpu_property ec)).builddeps =
        (inject_gpu_property ec).builddeps
    ∧ ∃ m, (inject_gpu_property ec).modluafooter = some m
          ∧ substr (gpuValue "11.4") m = true := by
  have hfire : "CUDA" ∈ ec.deps.map Prod.fst ∨
      ec.toolchainName ∈ CUDA_ENABLED_TOOLCHAINS := by
    left
    rw [hdeps]
    simp
  have hloop : cudaDepLoopF ec.deps.length ec.deps ec.builddeps "0" 0 =
      (pre ++ post, ec.builddeps ++ [("CUDA", "11.4")], "11.4") := by
    rw [hdeps,
      cudaDepLoop_eval pre post ("CUDA", "11.4") ec.builddeps "0" (by decide) hpre hpost,
      if_neg hb]
  obtain ⟨m, heq, hm⟩ := inject_fired_eq ec hfire
  rw [hloop] at heq hm
  have hnm : ∀ d ∈ pre ++ post, substr "CUDA" d.1 = false := by
    intro d hd
    rcases List.mem_append.mp hd with h | h
    · exact hpre d h
    · exact hpost d h
  refine ⟨by rw [heq], by rw [heq], ?_, ?_, ⟨m, by rw [heq], hm⟩⟩
  · rw [heq]
    simp [List.count_append, List.count_eq_zero.mpr hb]
  · rw [heq]
    by_cases hf2 : "CUDA" ∈ (pre ++ post).map Prod.fst ∨
        ec.toolchainName ∈ CUDA_ENABLED_TOOLCHAINS
    · obtain ⟨m2, heq2, _⟩ := inject_fired_eq
        { ec with deps := pre ++ post,
                  builddeps := ec.builddeps ++ [("CUDA", "11.4")],
                  modluafooter := some m } hf2
      rw [heq2]
      simp only
      rw [cudaDepLoopF_noMatchAll _ _ _ hnm]
    · rw [inject_gpu_property_not_fired _ hf2]

/-- Witness for claim C4 (amended): a three-entry dependency list with
one CUDA entry surrounded by ordinary dependencies. -/
theorem claim_C4_witness :
    (EC.deps { name := "Baz", deps := [("foo", "1"), ("CUDA", "11.4"), ("bar", "2")],
               builddeps := [("x", "9")], toolchainName := "foss", modluafooter := none,
               tcStrict := none, tcPrecise := none, configopts := "", preconfigopts := "" } =
      [("foo", "1")] ++ ("CUDA", "11.4") :: [("bar", "2")])
    ∧ (∀ d ∈ [(("foo", "1") : Dep)], substr "CUDA" d.1 = false)
    ∧ (∀ d ∈ [(("bar", "2") : Dep)], substr "CUDA" d.1 = false)
    ∧ (("CUDA", "11.4") ∉ [(("x", "9") : Dep)])
    ∧ ((inject_gpu_property
        { name := "Baz", deps := [("foo", "1"), ("CUDA", "11.4"), ("bar", "2")],
          builddeps := [("x", "9")], toolchainName := "foss", modluafooter := none,
          tcStrict := none, tcPrecise := none, configopts := "", preconfigopts := "" }).deps =
        [("foo", "1")] ++ [("bar", "2")]
      ∧ (inject_gpu_property
          { name := "Baz", deps := [("foo", "1"), ("CUDA", "11.4"), ("bar", "2")],
            builddeps := [("x", "9")], toolchainName := "foss", modluafooter := none,
            tcStrict := none, tcPrecise := none, configopts := "", preconfigopts := "" }).builddeps =
          [("x", "9")] ++ [("CUDA", "11.4")]
      ∧ ((inject_gpu_property
          { name := "Baz", deps := [("foo", "1"), ("CUDA", "11.4"), ("bar", "2")],
            builddeps := [("x", "9")], toolchainName := "foss", modluafooter := none,
            tcStrict := none, tcPrecise := none, configopts := "", preconfigopts := "" }).builddeps.count
            ("CUDA", "11.4") = 1)
      ∧ (inject_gpu_property (inject_gpu_property
          { name := "Baz", deps := [("foo", "1"), ("CUDA", "11.4"), ("bar", "2")],
            builddeps := [("x", "9")], toolchainName := "foss", modluafooter := none,
            tcStrict := none, tcPrecise := none, configopts := "", preconfigopts := "" })).builddeps =
          (inject_gpu_property
          { name := "Baz", deps := [("foo", "1"), ("CUDA", "11.4"), ("bar", "2")],
            builddeps := [("x", "9")], toolchainName := "foss", modluafooter := none,
            tcStrict := none, tcPrecise := none, configopts := "", preconfigopts := "" }).builddeps
      ∧ ∃ m, (inject_gpu_property
          { name := "Baz", deps := [("foo", "1"), ("CUDA", "11.4"), ("bar", "2")],
            builddeps := [("x", "9")], toolchainName := "foss", modluafooter := none,
            tcStrict := none, tcPrecise := none, configopts := "", preconfigopts := "" }).modluafooter =
            some m
          ∧ substr (gpuValue "11.4") m = true) := by
  refine ⟨rfl, by decide, by decide, by decide, ?_⟩
  exact claim_C4_amended _ [("foo", "1")] [("bar", "2")] rfl (by decide) (by decide) (by decide)

/-- Counterexample to claim C10 as stated: a dependency list with no
entry NAMED `CUDA` but with an entry whose name merely CONTAINS `CUDA`
(`fooCUDA`) — the loop matches by substring, so on a CUDA-enabled
toolchain the injected setenv line carries that entry's version `9.0`,
not the default `0` the claim predicts. -/
theorem claim_C10_counterexample :
    ("CUDA" ∉ (EC.deps
      { name := "Foo", deps := [("fooCUDA", "9.0")], builddeps := [],
        toolchainName := "gcccuda", modluafooter := none, tcStrict := none,
        tcPrecise := none, configopts := "", preconfigopts := "" }).map Prod.fst)
    ∧ (EC.toolchainName
        { name := "Foo", deps := [("fooCUDA", "9.0")], builddeps := [],
          toolchainName := "gcccuda", modluafooter := none, tcStrict := none,
          tcPrecise := none, configopts := "", preconfigopts := "" } ∈
        CUDA_ENABLED_TOOLCHAINS)
    ∧ (inject_gpu_property
        { name := "Foo", deps := [("fooCUDA", "9.0")], builddeps := [],
          toolchainName := "gcccuda", modluafooter := none, tcStrict := none,
          tcPrecise := none, configopts := "", preconfigopts := "" }).modluafooter =
        some (gpuValue "9.0")
    ∧ substr (gpuSetenvLine "0") (gpuValue "9.0") = false := by
  exact ⟨by decide, by decide, rfl, by decide⟩

/-- Claim C10 (amended): for a package on a CUDA-enabled toolchain whose
dependency list has no entry whose name contains `CUDA`, the injector
leaves both dependency lists unchanged and still injects the module
footer, whose setenv line carries the literal default version `0`. -/
theorem claim_C10_amended (ec : EC)
    (htc : ec.toolchainName ∈ CUDA_ENABLED_TOOLCHAINS)
    (hdeps : ∀ d ∈ ec.deps, substr "CUDA" d.1 = false) :
    (inject_gpu_property ec).deps = ec.deps
    ∧ (inject_gpu_property ec).builddeps = ec.builddeps
    ∧ ∃ m, (inject_gpu_property ec).modluafooter = some m
          ∧ substr (gpuValue "0") m = true := by
  obtain ⟨m, heq, hm⟩ := inject_fired_eq ec (Or.inr htc)
  rw [cudaDepLoopF_noMatchAll ec.deps ec.builddeps "0" hdeps] at heq hm
  exact ⟨by rw [heq], by rw [heq], ⟨m, by rw [heq], hm⟩⟩

/-- Witness for claim C10 (amended): toolchain `gcccuda` and a CUDA-free
dependency list; the footer is injected with version `0`. -/
theorem claim_C10_witness :
    (EC.toolchainName
      { name := "Bar", deps := [("zlib", "1.2")], builddeps := [("x", "9")],
        toolchainName := "gcccuda", modluafooter := none, tcStrict := none,
        tcPrecise := none, configopts := "", preconfigopts := "" } ∈
      CUDA_ENABLED_TOOLCHAINS)
    ∧ (∀ d ∈ [(("zlib", "1.2") : Dep)], substr "CUDA" d.1 = false)
    ∧ ((inject_gpu_property
        { name := "Bar", deps := [("zlib", "1.2")], builddeps := [("x", "9")],
          toolchainName := "gcccuda", modluafooter := none, tcStrict := none,
          tcPrecise := none, configopts := "", preconfigopts := "" }).deps =
        [("zlib", "1.2")]
      ∧ (inject_gpu_property
          { name := "Bar", deps := [("zlib", "1.2")], builddeps := [("x", "9")],
            toolchainName := "gcccuda", modluafooter := none, tcStrict := none,
            tcPrecise := none, configopts := "", preconfigopts := "" }).builddeps =
          [("x", "9")]
      ∧ ∃ m, (inject_gpu_property
          { name := "Bar", deps := [("zlib", "1.2")], builddeps := [("x", "9")],
            toolchainName := "gcccuda", modluafooter := none, tcStrict := none,
            tcPrecise := none, configopts := "", preconfigopts := "" }).modluafooter =
            some m
          ∧ substr (gpuValue "0") m = true) := by
  refine ⟨by decide, by decide, ?_⟩
  exact claim_C10_amended _ (by decide) (by decide)

end EbHooks
